import Mathlib

/-!
Shallow embedding of the provider-gitlab repository (a Crossplane provider
for GitLab).  Go pointers become Option, Go errors become Option String
(their message, compared the way test.EquateErrors compares messages),
and the GitLab / Kubernetes services become records of pure functions whose
outcomes the controller functions consume.  Definitions are translated from
the Go sources under src/; parts of the repository that are not under src/
(only their tests are) carry a doc comment starting with the words
Modelled from the spec.
-/

/- ### Go standard-library and crossplane-runtime primitives -/

/-- Go errors.New / errors.Wrap model: an error is its message (test.EquateErrors
compares messages).  errors.Wrap(nil, msg) returns nil, otherwise the message
is msg ++ ": " ++ err. -/
def goErrorsWrap (e : Option String) (msg : String) : Option String :=
  match e with
  | none => none
  | some s => some (msg ++ ": " ++ s)

/-- Go strings.HasPrefix on rune lists. -/
def listStartsWith : List Char → List Char → Bool
  | _, [] => true
  | [], _ :: _ => false
  | c :: s, d :: t => c == d && listStartsWith s t

/-- Go strings.Contains on rune lists: substring containment. -/
def listContainsSub : List Char → List Char → Bool
  | [], sub => sub.isEmpty
  | c :: s, sub => listStartsWith (c :: s) sub || listContainsSub s sub

/-- Go strings.Contains. -/
def goStringsContains (s sub : String) : Bool :=
  listContainsSub s.data sub.data

/-- Go strconv.Atoi error message for invalid syntax (escaping of
special characters inside the quoted input is not modelled; the
out-of-range error of 64-bit Atoi is not modelled either, the inputs the
controllers see are small). -/
def goAtoiErrMsg (s : String) : String :=
  "strconv.Atoi: parsing \"" ++ s ++ "\": invalid syntax"

/-- Digit run to number, most significant first. -/
def digitsVal (ds : List Char) : Nat :=
  ds.foldl (fun a c => a * 10 + (c.toNat - 48)) 0

/-- Go strconv.Atoi: optional sign followed by at least one decimal digit. -/
def goAtoi (s : String) : Except String Int :=
  match s.data with
  | '+' :: rest =>
      if rest ≠ [] ∧ rest.all Char.isDigit then Except.ok (digitsVal rest : Int)
      else Except.error (goAtoiErrMsg s)
  | '-' :: rest =>
      if rest ≠ [] ∧ rest.all Char.isDigit then Except.ok (-(digitsVal rest : Int))
      else Except.error (goAtoiErrMsg s)
  | rest =>
      if rest ≠ [] ∧ rest.all Char.isDigit then Except.ok (digitsVal rest : Int)
      else Except.error (goAtoiErrMsg s)

/-- An HTTP response as the controllers inspect it (gitlab.Response). -/
structure HTTPResponse where
  StatusCode : Int
deriving DecidableEq

/-- Modelled from the spec: clients.IsResponseNotFound of pkg/clients is not
under src/; per the spec's not-found handling and the controller tests
(a 404 status on the GET response means the external resource is absent)
it reports a non-nil response with status code 404. -/
def IsResponseNotFound : Option HTTPResponse → Bool
  | some r => r.StatusCode == 404
  | none => false

/-- Modelled from the spec: clients.LateInitializeStringPtr of pkg/clients is
not under src/; per the spec's late-initialization of unset fields and the
project controller test (a remote object whose string fields are empty
produces no late-initialization) it fills a nil string pointer only from a
non-empty remote string. -/
def LateInitializeStringPtr (p : Option String) (v : String) : Option String :=
  match p with
  | some s => some s
  | none => if v = "" then none else some v

/-- managed.ExternalObservation. -/
structure ExternalObservation where
  ResourceExists : Bool := false
  ResourceUpToDate : Bool := false
  ResourceLateInitialized : Bool := false
  ConnectionDetails : List (String × String) := []
deriving DecidableEq

/-- managed.ExternalCreation. -/
structure ExternalCreation where
  ExternalNameAssigned : Bool := false
  ConnectionDetails : List (String × String) := []
deriving DecidableEq

/-- managed.ExternalUpdate. -/
structure ExternalUpdate where
  ConnectionDetails : List (String × String) := []
deriving DecidableEq

/- ### Project CI Variables (pkg/clients/projects variables file, under src/) -/

/-- The 404 marker the Variable client greps error messages for. -/
def errVariableNotFound : String := "404 Variable Not Found"

/-- gitlab.ProjectVariable (the wire struct fields the provider reads). -/
structure ProjectVariable where
  Key : String
  Value : String
  VariableType : String
  Protected : Bool
  Masked : Bool
  EnvironmentScope : String
deriving DecidableEq

/-- v1alpha1.VariableParameters.  ProjectIDRef / ProjectIDSelector are opaque
reference values (their contents never influence the functions below). -/
structure VariableParameters where
  ProjectID : Option Int := none
  ProjectIDRef : Option String := none
  ProjectIDSelector : Option String := none
  Key : String
  Value : String
  Masked : Option Bool := none
  Protected : Option Bool := none
  VariableType : Option String := none
  EnvironmentScope : Option String := none
deriving DecidableEq

/-- IsErrorVariableNotFound: false on a nil error, otherwise substring match
of the fixed marker in the error message. -/
def IsErrorVariableNotFound (err : Option String) : Bool :=
  match err with
  | none => false
  | some s => goStringsContains s errVariableNotFound

/-- LateInitializeVariable: fills nil spec fields from the remote variable;
a nil remote leaves the spec unchanged. -/
def LateInitializeVariable (p : VariableParameters) (remote : Option ProjectVariable) :
    VariableParameters :=
  match remote with
  | none => p
  | some v =>
    { p with
      VariableType := if p.VariableType.isNone then some v.VariableType else p.VariableType
      Protected := if p.Protected.isNone then some v.Protected else p.Protected
      Masked := if p.Masked.isNone then some v.Masked else p.Masked
      EnvironmentScope :=
        if p.EnvironmentScope.isNone then some v.EnvironmentScope else p.EnvironmentScope }

/-- VariableToParameters: converts the GitLab representation back into the
local parameters format (all pointer fields point at the remote values). -/
def VariableToParameters (v : ProjectVariable) : VariableParameters :=
  { Key := v.Key
    Value := v.Value
    VariableType := some v.VariableType
    Protected := some v.Protected
    Masked := some v.Masked
    EnvironmentScope := some v.EnvironmentScope }

/-- gitlab.CreateProjectVariableOptions. -/
structure CreateProjectVariableOptions where
  Key : Option String
  Value : Option String
  VariableType : Option String
  Protected : Option Bool
  Masked : Option Bool
  EnvironmentScope : Option String
deriving DecidableEq

/-- gitlab.UpdateProjectVariableOptions (no Key field). -/
structure UpdateProjectVariableOptions where
  Value : Option String
  VariableType : Option String
  Protected : Option Bool
  Masked : Option Bool
  EnvironmentScope : Option String
deriving DecidableEq

/-- GenerateCreateVariableOptions. -/
def GenerateCreateVariableOptions (p : VariableParameters) : CreateProjectVariableOptions :=
  { Key := some p.Key
    Value := some p.Value
    VariableType := p.VariableType
    Protected := p.Protected
    Masked := p.Masked
    EnvironmentScope := p.EnvironmentScope }

/-- GenerateUpdateVariableOptions. -/
def GenerateUpdateVariableOptions (p : VariableParameters) : UpdateProjectVariableOptions :=
  { Value := some p.Value
    VariableType := p.VariableType
    Protected := p.Protected
    Masked := p.Masked
    EnvironmentScope := p.EnvironmentScope }

/-- IsVariableUpToDate: a nil spec is up to date; otherwise cmp.Equal of the
spec against VariableToParameters of the remote, ignoring ProjectID and the
reference and selector fields (cmpopts.IgnoreFields and IgnoreTypes), so the
compared fields are Key, Value, VariableType, Protected, Masked and
EnvironmentScope; cmpopts.EquateEmpty only affects nil slices and maps, so
pointer fields compare by both-nil or pointed-value equality. -/
def IsVariableUpToDate (p : Option VariableParameters) (g : ProjectVariable) : Bool :=
  match p with
  | none => true
  | some p =>
    let q := VariableToParameters g
    p.Key == q.Key && p.Value == q.Value && p.VariableType == q.VariableType
      && p.Protected == q.Protected && p.Masked == q.Masked
      && p.EnvironmentScope == q.EnvironmentScope

/- ### Project Hooks (pkg/clients/projects hook file, under src/) -/

/-- The 404 marker the Hook client greps error messages for. -/
def errHookNotFound : String := "404 Not found"

/-- gitlab.ProjectHook (the wire struct fields the provider reads). -/
structure ProjectHook where
  ID : Int := 0
  URL : String := ""
  ConfidentialNoteEvents : Bool := false
  PushEvents : Bool := false
  PushEventsBranchFilter : String := ""
  IssuesEvents : Bool := false
  ConfidentialIssuesEvents : Bool := false
  MergeRequestsEvents : Bool := false
  TagPushEvents : Bool := false
  NoteEvents : Bool := false
  JobEvents : Bool := false
  PipelineEvents : Bool := false
  WikiPageEvents : Bool := false
  EnableSSLVerification : Bool := false
deriving DecidableEq

/-- v1alpha1.HookParameters (pointer fields of the hook spec). -/
structure HookParameters where
  URL : Option String := none
  ConfidentialNoteEvents : Option Bool := none
  PushEvents : Option Bool := none
  PushEventsBranchFilter : Option String := none
  IssuesEvents : Option Bool := none
  ConfidentialIssuesEvents : Option Bool := none
  MergeRequestsEvents : Option Bool := none
  TagPushEvents : Option Bool := none
  NoteEvents : Option Bool := none
  JobEvents : Option Bool := none
  PipelineEvents : Option Bool := none
  WikiPageEvents : Option Bool := none
  EnableSSLVerification : Option Bool := none
  Token : Option String := none
deriving DecidableEq

/-- IsErrorHookNotFound: false on a nil error, otherwise substring match of
the fixed marker in the error message. -/
def IsErrorHookNotFound (err : Option String) : Bool :=
  match err with
  | none => false
  | some s => goStringsContains s errHookNotFound

/-- LateInitializeHook: fills the nil event and SSL boolean fields from the
remote hook, runs PushEventsBranchFilter through LateInitializeStringPtr,
does not touch URL or Token, and leaves the spec unchanged on a nil hook. -/
def LateInitializeHook (p : HookParameters) (hook : Option ProjectHook) : HookParameters :=
  match hook with
  | none => p
  | some h =>
    { p with
      ConfidentialNoteEvents :=
        if p.ConfidentialNoteEvents.isNone then some h.ConfidentialNoteEvents
        else p.ConfidentialNoteEvents
      PushEvents := if p.PushEvents.isNone then some h.PushEvents else p.PushEvents
      IssuesEvents := if p.IssuesEvents.isNone then some h.IssuesEvents else p.IssuesEvents
      PushEventsBranchFilter :=
        LateInitializeStringPtr p.PushEventsBranchFilter h.PushEventsBranchFilter
      ConfidentialIssuesEvents :=
        if p.ConfidentialIssuesEvents.isNone then some h.ConfidentialIssuesEvents
        else p.ConfidentialIssuesEvents
      MergeRequestsEvents :=
        if p.MergeRequestsEvents.isNone then some h.MergeRequestsEvents
        else p.MergeRequestsEvents
      TagPushEvents := if p.TagPushEvents.isNone then some h.TagPushEvents else p.TagPushEvents
      NoteEvents := if p.NoteEvents.isNone then some h.NoteEvents else p.NoteEvents
      JobEvents := if p.JobEvents.isNone then some h.JobEvents else p.JobEvents
      PipelineEvents :=
        if p.PipelineEvents.isNone then some h.PipelineEvents else p.PipelineEvents
      WikiPageEvents :=
        if p.WikiPageEvents.isNone then some h.WikiPageEvents else p.WikiPageEvents
      EnableSSLVerification :=
        if p.EnableSSLVerification.isNone then some h.EnableSSLVerification
        else p.EnableSSLVerification }

/- ### Group Members (pkg/controller/groups members controller, under src/) -/

def errNotMember : String := "managed resource is not a Gitlab Group Member custom resource"

def errMemberCreateFailed : String := "cannot create Gitlab Group Member"

def errMemberUpdateFailed : String := "cannot update Gitlab Group Member"

def errMemberDeleteFailed : String := "cannot delete Gitlab Group Member"

def errMemberGetFailed : String := "cannot get Gitlab Group Member"

def errMissingGroupID : String := "Group ID not set"

/-- gitlab.GroupMemberSAMLIdentity / v1alpha1.MemberSAMLIdentity. -/
structure MemberSAMLIdentity where
  ExternUID : String
  Provider : String
  SAMLProviderID : Int
deriving DecidableEq

/-- gitlab.GroupMember; ExpiresAt models the *gitlab.ISOTime pointer as the
ISO-8601 rendering of the time (its String method), absent when nil. -/
structure GroupMember where
  Username : String := ""
  Name : String := ""
  State : String := ""
  AvatarURL : String := ""
  WebURL : String := ""
  AccessLevel : Int := 0
  ExpiresAt : Option String := none
  GroupSAMLIdentity : Option MemberSAMLIdentity := none
deriving DecidableEq

/-- v1alpha1.MemberParameters. -/
structure MemberParameters where
  GroupID : Option Int := none
  UserID : Int := 0
  AccessLevel : Int := 0
  ExpiresAt : Option String := none
deriving DecidableEq

/-- v1alpha1.MemberObservation (status.atProvider). -/
structure MemberObservation where
  Username : String := ""
  Name : String := ""
  State : String := ""
  AvatarURL : String := ""
  WebURL : String := ""
  GroupSAMLIdentity : Option MemberSAMLIdentity := none
deriving DecidableEq

/-- v1alpha1.Member custom resource (the parts the controller touches);
Conditions models status.conditions by the names of the set conditions. -/
structure MemberCR where
  Spec : MemberParameters
  AtProvider : MemberObservation := {}
  Conditions : List String := []
deriving DecidableEq

/-- Modelled from the spec: groups.GenerateMemberObservation of
pkg/clients/groups is not under src/ (only its test); per the spec's
observation generation and its test it copies the remote member's fields
into the observation. -/
def GenerateMemberObservation (g : GroupMember) : MemberObservation :=
  { Username := g.Username
    Name := g.Name
    State := g.State
    AvatarURL := g.AvatarURL
    WebURL := g.WebURL
    GroupSAMLIdentity := g.GroupSAMLIdentity }

/-- gitlab.AddGroupMemberOptions (the fields the provider fills). -/
structure AddGroupMemberOptions where
  UserID : Option Int
  AccessLevel : Option Int
  ExpiresAt : Option String
deriving DecidableEq

/-- gitlab.EditGroupMemberOptions (the fields the provider fills). -/
structure EditGroupMemberOptions where
  AccessLevel : Option Int
  ExpiresAt : Option String
deriving DecidableEq

/-- Modelled from the spec: groups.GenerateAddMemberOptions of
pkg/clients/groups is not under src/ (only its test); per its test it
carries UserID, AccessLevel and ExpiresAt into the add options. -/
def GenerateAddMemberOptions (p : MemberParameters) : AddGroupMemberOptions :=
  { UserID := some p.UserID
    AccessLevel := some p.AccessLevel
    ExpiresAt := p.ExpiresAt }

/-- Modelled from the spec: groups.GenerateEditMemberOptions of
pkg/clients/groups is not under src/ (only its test); per its test it
carries AccessLevel and ExpiresAt into the edit options. -/
def GenerateEditMemberOptions (p : MemberParameters) : EditGroupMemberOptions :=
  { AccessLevel := some p.AccessLevel
    ExpiresAt := p.ExpiresAt }

/-- Result of MemberClient.GetGroupMember: the Go call returns
(member pointer, response, error); the member value is meaningful only on
the nil-error path, where the controller dereferences it. -/
structure GetMemberResult where
  Member : GroupMember := {}
  Response : Option HTTPResponse := none
  Error : Option String := none

/-- The groups.MemberClient service as a record of pure outcome functions. -/
structure MemberService where
  GetGroupMember : Int → Int → GetMemberResult
  AddGroupMember : Int → AddGroupMemberOptions → Option String
  EditGroupMember : Int → Int → EditGroupMemberOptions → Option String
  RemoveGroupMember : Int → Int → Option String

/-- derefString of the members controller. -/
def derefString : Option String → String
  | some s => s
  | none => ""

/-- isoTimeToString of the members controller: the ISO-8601 rendering of a
present ISOTime, the empty string when the pointer is nil (the interface
type assertion always succeeds at the one call site, where the argument is
a *gitlab.ISOTime). -/
def isoTimeToString : Option String → String
  | some t => t
  | none => ""

/-- isMemberUpToDate of the members controller. -/
def isMemberUpToDate (p : MemberParameters) (g : GroupMember) : Bool :=
  (p.AccessLevel == g.AccessLevel)
    && (derefString p.ExpiresAt == isoTimeToString g.ExpiresAt)

/- ### Deploy Keys (pkg/controller/projects/deploykeys, controller not under
src/, only its tests; the controller model below is modelled from the spec's
reconciliation shape and pinned field by field by controller_test.go) -/

/-- Modelled from the spec: the deploykeys controller error constants are not
under src/; errIDNotAnInt is pinned by its tests and the claim text, the
others are named constants whose exact wording the tests do not reveal
(the tests only distinguish which constant each path returns). -/
def dkErrNotDeployKey : String := "managed resource is not a Gitlab Deploy Key custom resource"

def dkErrProjectIDMissing : String := "Project ID not set"

def dkErrIDNotAnInt : String := "ID is not an integer value"

def dkErrGetFail : String := "cannot get Gitlab Deploy Key"

def dkErrCreateFail : String := "cannot create Gitlab Deploy Key"

def dkErrUpdateFail : String := "cannot update Gitlab Deploy Key"

def dkErrDeleteFail : String := "cannot delete Gitlab Deploy Key"

def dkErrKeyMissing : String := "cannot get the key from the secret"

/-- gitlab.ProjectDeployKey; CreatedAt models the *time.Time pointer
opaquely. -/
structure ProjectDeployKey where
  ID : Int := 0
  Title : String := ""
  Key : String := ""
  CreatedAt : Option Int := none
  CanPush : Bool := false
deriving DecidableEq

/-- v1alpha1.DeployKeyParameters (the fields the controller touches). -/
structure DeployKeyParameters where
  ProjectID : Option String := none
  Title : String := ""
  CanPush : Option Bool := none
deriving DecidableEq

/-- v1alpha1.DeployKeyObservation (status.atProvider). -/
structure DeployKeyObservation where
  ID : Option Int := none
  CreatedAt : Option Int := none
deriving DecidableEq

/-- v1alpha1.DeployKey custom resource; ExternalName models the
crossplane.io/external-name annotation (empty when unset). -/
structure DeployKeyCR where
  ExternalName : String := ""
  Spec : DeployKeyParameters := {}
  AtProvider : DeployKeyObservation := {}
  Conditions : List String := []
deriving DecidableEq

/-- Result of DeployKeyClient.GetDeployKey; the key value is meaningful only
on the nil-error path. -/
structure GetDeployKeyResult where
  DeployKey : ProjectDeployKey := {}
  Response : Option HTTPResponse := none
  Error : Option String := none

/-- Result of DeployKeyClient.AddDeployKey. -/
structure AddDeployKeyResult where
  DeployKey : ProjectDeployKey := {}
  Error : Option String := none

/-- The projects.DeployKeyClient service as a record of pure outcome
functions (project id is the string id, deploy key id the parsed int). -/
structure DeployKeyService where
  GetDeployKey : String → Int → GetDeployKeyResult
  AddDeployKey : String → AddDeployKeyResult
  UpdateDeployKey : String → Int → Option String
  DeleteDeployKey : String → Int → Option String

/-- A managed resource handed to an ExternalClient (resource.Managed): the
type assertions of the controllers distinguish these cases. -/
inductive Managed where
  | member (cr : MemberCR)
  | deployKey (cr : DeployKeyCR)
  | other
deriving DecidableEq

/- ### Members controller operations (under src/) -/

/-- Observe of the members controller: type guard, Group ID guard, GET, with
a not-found response reported as absence, other errors wrapped with the
get-failed message; on success the observation is generated, Available is
set and up-to-dateness is computed. -/
def memberObserve (svc : MemberService) (mg : Managed) :
    Managed × ExternalObservation × Option String :=
  match mg with
  | Managed.member cr =>
    match cr.Spec.GroupID with
    | none => (Managed.member cr, {}, some errMissingGroupID)
    | some gid =>
      match (svc.GetGroupMember gid cr.Spec.UserID).Error with
      | some e =>
        if IsResponseNotFound (svc.GetGroupMember gid cr.Spec.UserID).Response then
          (Managed.member cr, {}, none)
        else
          (Managed.member cr, {}, some (errMemberGetFailed ++ ": " ++ e))
      | none =>
        (Managed.member
          { cr with
            AtProvider := GenerateMemberObservation (svc.GetGroupMember gid cr.Spec.UserID).Member
            Conditions := ["Available"] },
         { ResourceExists := true
           ResourceUpToDate :=
             isMemberUpToDate cr.Spec (svc.GetGroupMember gid cr.Spec.UserID).Member
           ResourceLateInitialized := false },
         none)
  | Managed.deployKey cr => (Managed.deployKey cr, {}, some errNotMember)
  | Managed.other => (Managed.other, {}, some errNotMember)

/-- Create of the members controller. -/
def memberCreate (svc : MemberService) (mg : Managed) :
    Managed × ExternalCreation × Option String :=
  match mg with
  | Managed.member cr =>
    match cr.Spec.GroupID with
    | none => (Managed.member cr, {}, some errMissingGroupID)
    | some gid =>
      match svc.AddGroupMember gid (GenerateAddMemberOptions cr.Spec) with
      | some e => (Managed.member cr, {}, some (errMemberCreateFailed ++ ": " ++ e))
      | none => (Managed.member cr, { ExternalNameAssigned := true }, none)
  | Managed.deployKey cr => (Managed.deployKey cr, {}, some errNotMember)
  | Managed.other => (Managed.other, {}, some errNotMember)

/-- Update of the members controller. -/
def memberUpdate (svc : MemberService) (mg : Managed) :
    Managed × ExternalUpdate × Option String :=
  match mg with
  | Managed.member cr =>
    match cr.Spec.GroupID with
    | none => (Managed.member cr, {}, some errMissingGroupID)
    | some gid =>
      (Managed.member cr, {},
       goErrorsWrap (svc.EditGroupMember gid cr.Spec.UserID (GenerateEditMemberOptions cr.Spec))
         errMemberUpdateFailed)
  | Managed.deployKey cr => (Managed.deployKey cr, {}, some errNotMember)
  | Managed.other => (Managed.other, {}, some errNotMember)

/-- Delete of the members controller. -/
def memberDelete (svc : MemberService) (mg : Managed) : Managed × Option String :=
  match mg with
  | Managed.member cr =>
    match cr.Spec.GroupID with
    | none => (Managed.member cr, some errMissingGroupID)
    | some gid =>
      (Managed.member cr,
       goErrorsWrap (svc.RemoveGroupMember gid cr.Spec.UserID) errMemberDeleteFailed)
  | Managed.deployKey cr => (Managed.deployKey cr, some errNotMember)
  | Managed.other => (Managed.other, some errNotMember)

/- ### Deploykeys controller operations (modelled, pinned by its tests) -/

/-- Modelled from the spec: up-to-dateness of a deploy key per the
reconciliation shape and the Observe tests (title and push permission are
the comparable fields; the check runs after late-initialization). -/
def isDeployKeyUpToDate (p : DeployKeyParameters) (k : ProjectDeployKey) : Bool :=
  p.Title == k.Title && p.CanPush.getD false == k.CanPush

/-- Modelled from the spec: late-initialization of the deploy key spec per
the Observe tests (CanPush is filled when nil). -/
def lateInitializeDeployKey (p : DeployKeyParameters) (k : ProjectDeployKey) :
    DeployKeyParameters :=
  { p with CanPush := if p.CanPush.isNone then some k.CanPush else p.CanPush }

/-- Modelled from the spec: Observe of the deploykeys controller is not under
src/; per the spec's reconciliation shape and its tests it guards the type
and the Project ID, parses the external name (failing with the bare
id-not-an-integer error), treats a 404 GET response as absence, wraps other
GET errors, and on success late-initializes, fills status and computes
up-to-dateness. -/
def deployKeyObserve (svc : DeployKeyService) (mg : Managed) :
    Managed × ExternalObservation × Option String :=
  match mg with
  | Managed.deployKey cr =>
    match cr.Spec.ProjectID with
    | none => (Managed.deployKey cr, {}, some dkErrProjectIDMissing)
    | some pid =>
      match goAtoi cr.ExternalName with
      | Except.error _ => (Managed.deployKey cr, {}, some dkErrIDNotAnInt)
      | Except.ok kid =>
        match (svc.GetDeployKey pid kid).Error with
        | some e =>
          if IsResponseNotFound (svc.GetDeployKey pid kid).Response then
            (Managed.deployKey cr, {}, none)
          else
            (Managed.deployKey cr, {}, some (dkErrGetFail ++ ": " ++ e))
        | none =>
          (Managed.deployKey
            { cr with
              Spec := lateInitializeDeployKey cr.Spec (svc.GetDeployKey pid kid).DeployKey
              AtProvider :=
                { ID := some (svc.GetDeployKey pid kid).DeployKey.ID
                  CreatedAt := (svc.GetDeployKey pid kid).DeployKey.CreatedAt }
              Conditions := ["Available"] },
           { ResourceExists := true
             ResourceUpToDate :=
               isDeployKeyUpToDate
                 (lateInitializeDeployKey cr.Spec (svc.GetDeployKey pid kid).DeployKey)
                 (svc.GetDeployKey pid kid).DeployKey
             ResourceLateInitialized :=
               decide (lateInitializeDeployKey cr.Spec (svc.GetDeployKey pid kid).DeployKey
                 ≠ cr.Spec) },
           none)
  | Managed.member cr => (Managed.member cr, {}, some dkErrNotDeployKey)
  | Managed.other => (Managed.other, {}, some dkErrNotDeployKey)

/-- Modelled from the spec: Create of the deploykeys controller is not under
src/; per its tests it guards the type and the Project ID, fetches the key
material from the referenced secret (kubeGetErr is the outcome of that
Kubernetes GET, wrapped with the key-missing message on failure), wraps Add
errors with the create-failed message, and on success writes the new key's
id as the external name. -/
def deployKeyCreate (svc : DeployKeyService) (kubeGetErr : Option String) (mg : Managed) :
    Managed × ExternalCreation × Option String :=
  match mg with
  | Managed.deployKey cr =>
    match cr.Spec.ProjectID with
    | none => (Managed.deployKey cr, {}, some dkErrProjectIDMissing)
    | some pid =>
      match kubeGetErr with
      | some e => (Managed.deployKey cr, {}, some (dkErrKeyMissing ++ ": " ++ e))
      | none =>
        match (svc.AddDeployKey pid).Error with
        | some e => (Managed.deployKey cr, {}, some (dkErrCreateFail ++ ": " ++ e))
        | none =>
          (Managed.deployKey { cr with ExternalName := toString (svc.AddDeployKey pid).DeployKey.ID },
           {}, none)
  | Managed.member cr => (Managed.member cr, {}, some dkErrNotDeployKey)
  | Managed.other => (Managed.other, {}, some dkErrNotDeployKey)

/-- Modelled from the spec: Update of the deploykeys controller is not under
src/; per its tests it guards the type and the Project ID, parses the
external name wrapping the Atoi error with the id-not-an-integer message,
and wraps update-call errors with the update-failed message. -/
def deployKeyUpdate (svc : DeployKeyService) (mg : Managed) :
    Managed × ExternalUpdate × Option String :=
  match mg with
  | Managed.deployKey cr =>
    match cr.Spec.ProjectID with
    | none => (Managed.deployKey cr, {}, some dkErrProjectIDMissing)
    | some pid =>
      match goAtoi cr.ExternalName with
      | Except.error e => (Managed.deployKey cr, {}, some (dkErrIDNotAnInt ++ ": " ++ e))
      | Except.ok kid =>
        (Managed.deployKey cr, {}, goErrorsWrap (svc.UpdateDeployKey pid kid) dkErrUpdateFail)
  | Managed.member cr => (Managed.member cr, {}, some dkErrNotDeployKey)
  | Managed.other => (Managed.other, {}, some dkErrNotDeployKey)

/-- Modelled from the spec: Delete of the deploykeys controller is not under
src/; per its tests the failed type assertion returns the delete-failed
message (not the not-a-deploy-key message the other operations use), the
Project ID guard and external-name parsing mirror Update, and delete-call
errors are wrapped with the delete-failed message. -/
def deployKeyDelete (svc : DeployKeyService) (mg : Managed) : Managed × Option String :=
  match mg with
  | Managed.deployKey cr =>
    match cr.Spec.ProjectID with
    | none => (Managed.deployKey cr, some dkErrProjectIDMissing)
    | some pid =>
      match goAtoi cr.ExternalName with
      | Except.error e => (Managed.deployKey cr, some (dkErrIDNotAnInt ++ ": " ++ e))
      | Except.ok kid =>
        (Managed.deployKey cr, goErrorsWrap (svc.DeleteDeployKey pid kid) dkErrDeleteFail)
  | Managed.member cr => (Managed.member cr, some dkErrDeleteFail)
  | Managed.other => (Managed.other, some dkErrDeleteFail)

/- ### Project controller (pkg/controller/projects, controller not under
src/, only its tests in the projects package; modelled from the spec's
Observe / Create lifecycle and pinned by those tests) -/

/-- Modelled from the spec: the project controller error constants are not
under src/; named after the test expectations. -/
def prjErrGetFailed : String := "cannot get Gitlab project"

def prjErrCreateFailed : String := "cannot create Gitlab project"

def prjErrKubeUpdateFailed : String := "cannot update Kubernetes custom resource"

/-- gitlab.Project (the fields the modelled controller reads). -/
structure GitlabProject where
  Name : String := ""
  Path : String := ""
  RunnersToken : String := ""
deriving DecidableEq

/-- v1alpha1.ProjectParameters: of the many late-initializable fields only
Path is modelled (the one the tests exercise); it stands for the whole
field-by-field late-initialization. -/
structure ProjectParameters where
  Path : Option String := none
deriving DecidableEq

/-- v1alpha1.Project custom resource (the parts the modelled controller
touches). -/
structure ProjectCR where
  ExternalName : String := ""
  Spec : ProjectParameters := {}
  Conditions : List String := []
deriving DecidableEq

/-- Result of a project GET or CREATE call. -/
structure GetProjectResult where
  Project : GitlabProject := {}
  Error : Option String := none

/-- The projects.Client service as a record of pure outcome functions; the
Kubernetes client's Update outcome is passed separately to the operations
that call it. -/
structure ProjectService where
  GetProject : String → GetProjectResult
  CreateProject : ProjectParameters → GetProjectResult

/-- Modelled from the spec: late-initialization of the project spec
(represented by its Path field) through the string-pointer helper. -/
def lateInitializeProject (p : ProjectParameters) (g : GitlabProject) : ProjectParameters :=
  { Path := LateInitializeStringPtr p.Path g.Path }

/-- Modelled from the spec: Observe of the project controller is not under
src/; per the spec's lifecycle and its tests it GETs the project (wrapping
errors with the get-failed message), late-initializes the spec, persists a
changed spec through the Kubernetes client before anything else (a failed
kube update returns its error wrapped with the kube-update-failed message
while the in-memory spec keeps the late-initialized values), then sets
Available and reports existence with the runners token as connection
detail. -/
def projectObserve (svc : ProjectService) (kubeUpdateErr : Option String) (cr : ProjectCR) :
    ProjectCR × ExternalObservation × Option String :=
  match (svc.GetProject cr.ExternalName).Error with
  | some e => (cr, {}, some (prjErrGetFailed ++ ": " ++ e))
  | none =>
    let prj := (svc.GetProject cr.ExternalName).Project
    let spec1 := lateInitializeProject cr.Spec prj
    let cr1 := { cr with Spec := spec1 }
    if spec1 = cr.Spec then
      ({ cr1 with Conditions := ["Available"] },
       { ResourceExists := true
         ResourceUpToDate := true
         ResourceLateInitialized := false
         ConnectionDetails := [("runnersToken", prj.RunnersToken)] },
       none)
    else
      match kubeUpdateErr with
      | some e => (cr1, {}, some (prjErrKubeUpdateFailed ++ ": " ++ e))
      | none =>
        ({ cr1 with Conditions := ["Available"] },
         { ResourceExists := true
           ResourceUpToDate := true
           ResourceLateInitialized := true
           ConnectionDetails := [("runnersToken", prj.RunnersToken)] },
         none)

/-- Modelled from the spec: Create of the project controller is not under
src/; per its tests it creates the project (wrapping errors with the
create-failed message), late-initializes the spec and persists a changed
spec before setting conditions (a failed kube update returns its error
wrapped with the kube-update-failed message while the in-memory spec keeps
the late-initialized values), then sets Creating and adopts the remote name
as external name when it is non-empty. -/
def projectCreate (svc : ProjectService) (kubeUpdateErr : Option String) (cr : ProjectCR) :
    ProjectCR × ExternalCreation × Option String :=
  match (svc.CreateProject cr.Spec).Error with
  | some e => (cr, {}, some (prjErrCreateFailed ++ ": " ++ e))
  | none =>
    let prj := (svc.CreateProject cr.Spec).Project
    let spec1 := lateInitializeProject cr.Spec prj
    let cr1 := { cr with Spec := spec1 }
    let finish : ProjectCR × ExternalCreation × Option String :=
      ({ cr1 with
         Conditions := ["Creating"]
         ExternalName := if prj.Name = "" then cr1.ExternalName else prj.Name },
       {}, none)
    if spec1 = cr.Spec then
      finish
    else
      match kubeUpdateErr with
      | some e => (cr1, {}, some (prjErrKubeUpdateFailed ++ ": " ++ e))
      | none => finish

/- ### Concrete fixtures used by witnesses and counterexamples -/

/-- A member service whose GET fails with message boom and the given
response. -/
def memberSvcGetErr (r : Option HTTPResponse) : MemberService :=
  { GetGroupMember := fun _ _ => { Response := r, Error := some "boom" }
    AddGroupMember := fun _ _ => none
    EditGroupMember := fun _ _ _ => none
    RemoveGroupMember := fun _ _ => none }

/-- A deploy key service whose GET fails with message boom and the given
response. -/
def dkSvcGetErr (r : Option HTTPResponse) : DeployKeyService :=
  { GetDeployKey := fun _ _ => { Response := r, Error := some "boom" }
    AddDeployKey := fun _ => {}
    UpdateDeployKey := fun _ _ => none
    DeleteDeployKey := fun _ _ => none }

def memberSvcNoop : MemberService := memberSvcGetErr none

def dkSvcNoop : DeployKeyService := dkSvcGetErr none

def crMember1 : MemberCR := { Spec := { GroupID := some 1, UserID := 2 } }

def crMemberNoGroup : MemberCR := { Spec := {} }

def crDeployKey1 : DeployKeyCR :=
  { ExternalName := "123", Spec := { ProjectID := some "pid" } }

def crDeployKeyBadName : DeployKeyCR :=
  { ExternalName := "notAnInt", Spec := { ProjectID := some "pid" } }

def crDeployKeyNoProject : DeployKeyCR := {}

def prjLateInitRemote : GitlabProject := { Path := "some/path/to/repo" }

/-- A project service that always returns a remote project carrying only a
path, so that Observe and Create both late-initialize the spec. -/
def prjSvcLateInit : ProjectService :=
  { GetProject := fun _ => { Project := prjLateInitRemote }
    CreateProject := fun _ => { Project := prjLateInitRemote } }

def c2p : VariableParameters :=
  { Key := "k", Value := "v", VariableType := some "env_var"
    Protected := some false, Masked := some false, EnvironmentScope := none }

def c2g : ProjectVariable :=
  { Key := "k", Value := "v", VariableType := "env_var"
    Protected := false, Masked := false, EnvironmentScope := "" }

def c3hp : HookParameters := {}

def c3hook : ProjectHook := { URL := "https://example.com" }

/- ### Helper lemmas -/

/-- listStartsWith decides the existence of a completing suffix. -/
theorem listStartsWith_iff_append (sub : List Char) :
    ∀ s : List Char, listStartsWith s sub = true ↔ ∃ post, s = sub ++ post := by
  induction sub with
  | nil =>
    intro s
    cases s <;> simp [listStartsWith]
  | cons d t ih =>
    intro s
    cases s with
    | nil => simp [listStartsWith]
    | cons c s' =>
      simp only [listStartsWith, Bool.and_eq_true, beq_iff_eq, ih, List.cons_append,
        List.cons.injEq]
      constructor
      · rintro ⟨hc, post, hp⟩
        exact ⟨post, hc, hp⟩
      · rintro ⟨post, hc, hp⟩
        exact ⟨hc, post, hp⟩

/-- listContainsSub decides the existence of a substring decomposition. -/
theorem listContainsSub_iff_append (s : List Char) :
    ∀ sub : List Char, listContainsSub s sub = true ↔
      ∃ pre post, s = pre ++ sub ++ post := by
  induction s with
  | nil =>
    intro sub
    cases sub <;> simp [listContainsSub]
  | cons c s' ih =>
    intro sub
    simp only [listContainsSub, Bool.or_eq_true, listStartsWith_iff_append, ih]
    constructor
    · rintro (⟨post, hp⟩ | ⟨pre, post, hp⟩)
      · exact ⟨[], post, by simpa using hp⟩
      · exact ⟨c :: pre, post, by simp [hp]⟩
    · rintro ⟨pre, post, hp⟩
      cases pre with
      | nil => exact Or.inl ⟨post, by simpa using hp⟩
      | cons d pre' =>
        simp only [List.cons_append, List.cons.injEq] at hp
        exact Or.inr ⟨pre', post, hp.2⟩

/- ### Claim theorems -/

/-- C2 (amended): IsVariableUpToDate returns true iff the spec pointer is
nil, or Key and Value match and every pointer field among VariableType,
Protected, Masked and EnvironmentScope is non-nil and points at the remote
value (a nil spec pointer never equals the always-non-nil pointer produced
by VariableToParameters: cmpopts.EquateEmpty only equates nil slices and
maps, not nil pointers with pointed-to zero values); ProjectID and the
reference and selector fields are ignored. -/
theorem isVariableUpToDate_characterization (p : VariableParameters) (g : ProjectVariable) :
    IsVariableUpToDate none g = true
    ∧ (IsVariableUpToDate (some p) g = true ↔
        p.Key = g.Key ∧ p.Value = g.Value ∧ p.VariableType = some g.VariableType
          ∧ p.Protected = some g.Protected ∧ p.Masked = some g.Masked
          ∧ p.EnvironmentScope = some g.EnvironmentScope) := by
  refine ⟨rfl, ?_⟩
  simp [IsVariableUpToDate, VariableToParameters, and_assoc]

/-- C2 counterexample: a spec whose EnvironmentScope pointer is nil against a
remote whose EnvironmentScope is the empty string agrees on every other
compared field, yet IsVariableUpToDate reports false — nil pointers are not
equated to empty values as the claim states. -/
theorem isVariableUpToDate_nil_pointer_counterexample :
    c2p.EnvironmentScope = none ∧ c2g.EnvironmentScope = ""
    ∧ c2p.Key = c2g.Key ∧ c2p.Value = c2g.Value
    ∧ c2p.VariableType = some c2g.VariableType
    ∧ c2p.Protected = some c2g.Protected ∧ c2p.Masked = some c2g.Masked
    ∧ IsVariableUpToDate (some c2p) c2g = false :=
  ⟨rfl, rfl, rfl, rfl, rfl, rfl, rfl, rfl⟩

/-- C3 (amended): late-initialization fills only unset fields, but not all of
them: LateInitializeVariable fills exactly the nil fields among
VariableType, Protected, Masked and EnvironmentScope (never the ID,
reference or selector fields); LateInitializeHook fills exactly the nil
fields among the eleven event and SSL booleans, fills
PushEventsBranchFilter only when it is nil and the remote string is
non-empty, and never touches URL or Token; non-nil fields are left
unchanged, and a nil remote object leaves the spec entirely unchanged. -/
theorem lateInitialize_fills_only_unset (p : VariableParameters) (v : ProjectVariable)
    (q : HookParameters) (h : ProjectHook) :
    LateInitializeVariable p none = p
    ∧ LateInitializeHook q none = q
    ∧ (LateInitializeVariable p (some v)).Key = p.Key
    ∧ (LateInitializeVariable p (some v)).Value = p.Value
    ∧ (LateInitializeVariable p (some v)).ProjectID = p.ProjectID
    ∧ (LateInitializeVariable p (some v)).ProjectIDRef = p.ProjectIDRef
    ∧ (LateInitializeVariable p (some v)).ProjectIDSelector = p.ProjectIDSelector
    ∧ (LateInitializeVariable p (some v)).VariableType
        = (if p.VariableType.isNone then some v.VariableType else p.VariableType)
    ∧ (LateInitializeVariable p (some v)).Protected
        = (if p.Protected.isNone then some v.Protected else p.Protected)
    ∧ (LateInitializeVariable p (some v)).Masked
        = (if p.Masked.isNone then some v.Masked else p.Masked)
    ∧ (LateInitializeVariable p (some v)).EnvironmentScope
        = (if p.EnvironmentScope.isNone then some v.EnvironmentScope else p.EnvironmentScope)
    ∧ (LateInitializeHook q (some h)).URL = q.URL
    ∧ (LateInitializeHook q (some h)).Token = q.Token
    ∧ (LateInitializeHook q (some h)).ConfidentialNoteEvents
        = (if q.ConfidentialNoteEvents.isNone then some h.ConfidentialNoteEvents
           else q.ConfidentialNoteEvents)
    ∧ (LateInitializeHook q (some h)).PushEvents
        = (if q.PushEvents.isNone then some h.PushEvents else q.PushEvents)
    ∧ (LateInitializeHook q (some h)).IssuesEvents
        = (if q.IssuesEvents.isNone then some h.IssuesEvents else q.IssuesEvents)
    ∧ (LateInitializeHook q (some h)).ConfidentialIssuesEvents
        = (if q.ConfidentialIssuesEvents.isNone then some h.ConfidentialIssuesEvents
           else q.ConfidentialIssuesEvents)
    ∧ (LateInitializeHook q (some h)).MergeRequestsEvents
        = (if q.MergeRequestsEvents.isNone then some h.MergeRequestsEvents
           else q.MergeRequestsEvents)
    ∧ (LateInitializeHook q (some h)).TagPushEvents
        = (if q.TagPushEvents.isNone then some h.TagPushEvents else q.TagPushEvents)
    ∧ (LateInitializeHook q (some h)).NoteEvents
        = (if q.NoteEvents.isNone then some h.NoteEvents else q.NoteEvents)
    ∧ (LateInitializeHook q (some h)).JobEvents
        = (if q.JobEvents.isNone then some h.JobEvents else q.JobEvents)
    ∧ (LateInitializeHook q (some h)).PipelineEvents
        = (if q.PipelineEvents.isNone then some h.PipelineEvents else q.PipelineEvents)
    ∧ (LateInitializeHook q (some h)).WikiPageEvents
        = (if q.WikiPageEvents.isNone then some h.WikiPageEvents else q.WikiPageEvents)
    ∧ (LateInitializeHook q (some h)).EnableSSLVerification
        = (if q.EnableSSLVerification.isNone then some h.EnableSSLVerification
           else q.EnableSSLVerification)
    ∧ (LateInitializeHook q (some h)).PushEventsBranchFilter
        = (if q.PushEventsBranchFilter = none ∧ h.PushEventsBranchFilter ≠ ""
           then some h.PushEventsBranchFilter else q.PushEventsBranchFilter) := by
  refine ⟨rfl, rfl, rfl, rfl, rfl, rfl, rfl, rfl, rfl, rfl, rfl, rfl, rfl, rfl, rfl, rfl,
    rfl, rfl, rfl, rfl, rfl, rfl, rfl, rfl, ?_⟩
  cases hq : q.PushEventsBranchFilter with
  | some s => simp [LateInitializeHook, LateInitializeStringPtr, hq]
  | none =>
    by_cases hh : h.PushEventsBranchFilter = "" <;>
      simp [LateInitializeHook, LateInitializeStringPtr, hq, hh]

/-- C3 counterexample: a hook spec whose URL pointer is nil, late-initialized
from a remote hook with a non-empty URL, keeps the nil URL — contradicting
the claim that every nil pointer field is set from the remote value. -/
theorem lateInitializeHook_url_counterexample :
    c3hp.URL = none ∧ c3hook.URL ≠ ""
    ∧ (LateInitializeHook c3hp (some c3hook)).URL = none :=
  ⟨rfl, by decide, rfl⟩

/-- C5: isMemberUpToDate is true iff the access levels agree as integers and
the spec's expiry string (empty when the pointer is nil) agrees with the
ISO-8601 rendering of the remote expiry (empty when absent). -/
theorem isMemberUpToDate_characterization (p : MemberParameters) (g : GroupMember) :
    isMemberUpToDate p g = true ↔
      p.AccessLevel = g.AccessLevel
        ∧ derefString p.ExpiresAt = isoTimeToString g.ExpiresAt := by
  simp [isMemberUpToDate]

/-- C6: the option-generation functions are per-field translations:
GenerateCreateVariableOptions carries exactly Key, Value, VariableType,
Protected, Masked and EnvironmentScope, GenerateUpdateVariableOptions the
same fields without Key (its option struct has no Key field), nil spec
pointers passing through as nil option pointers. -/
theorem generateVariableOptions_fields (p : VariableParameters) :
    (GenerateCreateVariableOptions p).Key = some p.Key
    ∧ (GenerateCreateVariableOptions p).Value = some p.Value
    ∧ (GenerateCreateVariableOptions p).VariableType = p.VariableType
    ∧ (GenerateCreateVariableOptions p).Protected = p.Protected
    ∧ (GenerateCreateVariableOptions p).Masked = p.Masked
    ∧ (GenerateCreateVariableOptions p).EnvironmentScope = p.EnvironmentScope
    ∧ (GenerateUpdateVariableOptions p).Value = some p.Value
    ∧ (GenerateUpdateVariableOptions p).VariableType = p.VariableType
    ∧ (GenerateUpdateVariableOptions p).Protected = p.Protected
    ∧ (GenerateUpdateVariableOptions p).Masked = p.Masked
    ∧ (GenerateUpdateVariableOptions p).EnvironmentScope = p.EnvironmentScope :=
  ⟨rfl, rfl, rfl, rfl, rfl, rfl, rfl, rfl, rfl, rfl, rfl⟩

/-- C7: converting a remote variable to spec parameters and checking drift
against the same remote always reports up to date. -/
theorem variableToParameters_roundTrip_upToDate (g : ProjectVariable) :
    IsVariableUpToDate (some (VariableToParameters g)) g = true := by
  simp [IsVariableUpToDate, VariableToParameters]

/-- C10: not-found classification for Variables and Hooks is substring
matching on the error text: nil errors are never not-found, and a non-nil
error is classified not-found exactly when its message contains the fixed
marker string, regardless of anything else. -/
theorem isErrorNotFound_substring (err : Option String) :
    IsErrorVariableNotFound none = false
    ∧ IsErrorHookNotFound none = false
    ∧ (IsErrorVariableNotFound err = true ↔
        ∃ s pre post, err = some s ∧ s.data = pre ++ errVariableNotFound.data ++ post)
    ∧ (IsErrorHookNotFound err = true ↔
        ∃ s pre post, err = some s ∧ s.data = pre ++ errHookNotFound.data ++ post) := by
  refine ⟨rfl, rfl, ?_, ?_⟩ <;>
  · cases err with
    | none => simp [IsErrorVariableNotFound, IsErrorHookNotFound]
    | some s =>
      simp [IsErrorVariableNotFound, IsErrorHookNotFound, goStringsContains,
        listContainsSub_iff_append]

/-- C1: with the required IDs set, Observe of the group Member and DeployKey
controllers decides existence from the GET result: a GET failure with a 404
not-found response yields an empty ExternalObservation and a nil error, any
other GET failure yields an empty ExternalObservation and the error wrapped
with the controller's get-failed message, the resource (its status
included) being returned unchanged in both cases. -/
theorem observe_get_failure_classification
    (svcM : MemberService) (crM : MemberCR) (gid : Int) (eM : String)
    (hgid : crM.Spec.GroupID = some gid)
    (herrM : (svcM.GetGroupMember gid crM.Spec.UserID).Error = some eM)
    (svcD : DeployKeyService) (crD : DeployKeyCR) (pid : String) (kid : Int) (eD : String)
    (hpid : crD.Spec.ProjectID = some pid)
    (hext : goAtoi crD.ExternalName = Except.ok kid)
    (herrD : (svcD.GetDeployKey pid kid).Error = some eD) :
    (IsResponseNotFound (svcM.GetGroupMember gid crM.Spec.UserID).Response = true →
        memberObserve svcM (Managed.member crM) = (Managed.member crM, {}, none))
    ∧ (IsResponseNotFound (svcM.GetGroupMember gid crM.Spec.UserID).Response = false →
        memberObserve svcM (Managed.member crM)
          = (Managed.member crM, {}, some (errMemberGetFailed ++ ": " ++ eM)))
    ∧ (IsResponseNotFound (svcD.GetDeployKey pid kid).Response = true →
        deployKeyObserve svcD (Managed.deployKey crD) = (Managed.deployKey crD, {}, none))
    ∧ (IsResponseNotFound (svcD.GetDeployKey pid kid).Response = false →
        deployKeyObserve svcD (Managed.deployKey crD)
          = (Managed.deployKey crD, {}, some (dkErrGetFail ++ ": " ++ eD))) := by
  refine ⟨?_, ?_, ?_, ?_⟩ <;> intro hnf <;>
    simp [memberObserve, deployKeyObserve, hgid, herrM, hpid, hext, herrD, hnf]

/-- C1 witness: concrete member and deploy key resources against services
failing with a 404 and with a 400 response. -/
theorem observe_get_failure_classification_witness :
    memberObserve (memberSvcGetErr (some { StatusCode := 404 })) (Managed.member crMember1)
      = (Managed.member crMember1, {}, none)
    ∧ memberObserve (memberSvcGetErr (some { StatusCode := 400 })) (Managed.member crMember1)
      = (Managed.member crMember1, {}, some (errMemberGetFailed ++ ": " ++ "boom"))
    ∧ deployKeyObserve (dkSvcGetErr (some { StatusCode := 404 })) (Managed.deployKey crDeployKey1)
      = (Managed.deployKey crDeployKey1, {}, none)
    ∧ deployKeyObserve (dkSvcGetErr (some { StatusCode := 400 })) (Managed.deployKey crDeployKey1)
      = (Managed.deployKey crDeployKey1, {}, some (dkErrGetFail ++ ": " ++ "boom")) :=
  ⟨(observe_get_failure_classification (memberSvcGetErr (some { StatusCode := 404 }))
      crMember1 1 "boom" rfl rfl (dkSvcGetErr (some { StatusCode := 404 }))
      crDeployKey1 "pid" 123 "boom" rfl rfl rfl).1 rfl,
   (observe_get_failure_classification (memberSvcGetErr (some { StatusCode := 400 }))
      crMember1 1 "boom" rfl rfl (dkSvcGetErr (some { StatusCode := 404 }))
      crDeployKey1 "pid" 123 "boom" rfl rfl rfl).2.1 rfl,
   (observe_get_failure_classification (memberSvcGetErr (some { StatusCode := 404 }))
      crMember1 1 "boom" rfl rfl (dkSvcGetErr (some { StatusCode := 404 }))
      crDeployKey1 "pid" 123 "boom" rfl rfl rfl).2.2.1 rfl,
   (observe_get_failure_classification (memberSvcGetErr (some { StatusCode := 404 }))
      crMember1 1 "boom" rfl rfl (dkSvcGetErr (some { StatusCode := 400 }))
      crDeployKey1 "pid" 123 "boom" rfl rfl rfl).2.2.2 rfl⟩

/-- C4 (amended): every operation of the members controller performs its
guard checks before any GitLab API call (the results do not depend on the
service): a resource with a nil Group ID fails with exactly the Group ID
not set error, and a resource that is not a Member fails with exactly the
not-a-member error, the result empty and the resource unchanged; the
DeployKey controller guards analogously, except that its Delete returns the
delete-failed error (not the not-a-deploy-key error) on a failed type
assertion. -/
theorem guard_checks_before_api_calls
    (svcM : MemberService) (svcD : DeployKeyService) (kubeGetErr : Option String)
    (crM : MemberCR) (crD : DeployKeyCR) (crD0 : DeployKeyCR)
    (hM : crM.Spec.GroupID = none) (hD : crD.Spec.ProjectID = none) :
    (memberObserve svcM (Managed.member crM) = (Managed.member crM, {}, some errMissingGroupID)
      ∧ memberCreate svcM (Managed.member crM) = (Managed.member crM, {}, some errMissingGroupID)
      ∧ memberUpdate svcM (Managed.member crM) = (Managed.member crM, {}, some errMissingGroupID)
      ∧ memberDelete svcM (Managed.member crM) = (Managed.member crM, some errMissingGroupID))
    ∧ (deployKeyObserve svcD (Managed.deployKey crD)
        = (Managed.deployKey crD, {}, some dkErrProjectIDMissing)
      ∧ deployKeyCreate svcD kubeGetErr (Managed.deployKey crD)
        = (Managed.deployKey crD, {}, some dkErrProjectIDMissing)
      ∧ deployKeyUpdate svcD (Managed.deployKey crD)
        = (Managed.deployKey crD, {}, some dkErrProjectIDMissing)
      ∧ deployKeyDelete svcD (Managed.deployKey crD)
        = (Managed.deployKey crD, some dkErrProjectIDMissing))
    ∧ (memberObserve svcM Managed.other = (Managed.other, {}, some errNotMember)
      ∧ memberCreate svcM Managed.other = (Managed.other, {}, some errNotMember)
      ∧ memberUpdate svcM Managed.other = (Managed.other, {}, some errNotMember)
      ∧ memberDelete svcM Managed.other = (Managed.other, some errNotMember)
      ∧ memberObserve svcM (Managed.deployKey crD0)
        = (Managed.deployKey crD0, {}, some errNotMember))
    ∧ (deployKeyObserve svcD Managed.other = (Managed.other, {}, some dkErrNotDeployKey)
      ∧ deployKeyCreate svcD kubeGetErr Managed.other
        = (Managed.other, {}, some dkErrNotDeployKey)
      ∧ deployKeyUpdate svcD Managed.other = (Managed.other, {}, some dkErrNotDeployKey)
      ∧ deployKeyDelete svcD Managed.other = (Managed.other, some dkErrDeleteFail)) := by
  refine ⟨⟨?_, ?_, ?_, ?_⟩, ⟨?_, ?_, ?_, ?_⟩, ⟨rfl, rfl, rfl, rfl, rfl⟩,
    ⟨rfl, rfl, rfl, rfl⟩⟩ <;>
    simp [memberObserve, memberCreate, memberUpdate, memberDelete, deployKeyObserve,
      deployKeyCreate, deployKeyUpdate, deployKeyDelete, hM, hD]

/-- C4 witness: the guards at concrete resources with unset IDs. -/
theorem guard_checks_before_api_calls_witness :
    memberObserve memberSvcNoop (Managed.member crMemberNoGroup)
      = (Managed.member crMemberNoGroup, {}, some errMissingGroupID)
    ∧ deployKeyDelete dkSvcNoop (Managed.deployKey crDeployKeyNoProject)
      = (Managed.deployKey crDeployKeyNoProject, some dkErrProjectIDMissing) :=
  ⟨(guard_checks_before_api_calls memberSvcNoop dkSvcNoop none crMemberNoGroup
      crDeployKeyNoProject crDeployKeyNoProject rfl rfl).1.1,
   (guard_checks_before_api_calls memberSvcNoop dkSvcNoop none crMemberNoGroup
      crDeployKeyNoProject crDeployKeyNoProject rfl rfl).2.1.2.2.2⟩

/-- C4 counterexample: Delete of the DeployKey controller on a managed
resource that is not a DeployKey returns the delete-failed error, which
differs from the not-a-deploy-key error the claim requires for every
operation (pinned by the controller's NotADeployKey Delete test). -/
theorem deployKeyDelete_type_guard_counterexample :
    deployKeyDelete dkSvcNoop Managed.other = (Managed.other, some dkErrDeleteFail)
    ∧ dkErrDeleteFail ≠ dkErrNotDeployKey :=
  ⟨rfl, by decide⟩

/-- C8 (amended): for a DeployKey whose Project ID is set but whose
external-name annotation does not parse as a decimal integer, Observe,
Update and Delete fail without any GitLab API call (the results do not
depend on the service) rather than Observe reporting the resource as
non-existent; Observe returns the bare id-not-an-integer error, while
Update and Delete wrap the strconv.Atoi error with it. -/
theorem deployKey_external_name_not_int
    (svc : DeployKeyService) (cr : DeployKeyCR) (pid : String) (e : String)
    (hpid : cr.Spec.ProjectID = some pid)
    (hext : goAtoi cr.ExternalName = Except.error e) :
    deployKeyObserve svc (Managed.deployKey cr)
      = (Managed.deployKey cr, {}, some dkErrIDNotAnInt)
    ∧ deployKeyUpdate svc (Managed.deployKey cr)
      = (Managed.deployKey cr, {}, some (dkErrIDNotAnInt ++ ": " ++ e))
    ∧ deployKeyDelete svc (Managed.deployKey cr)
      = (Managed.deployKey cr, some (dkErrIDNotAnInt ++ ": " ++ e)) := by
  refine ⟨?_, ?_, ?_⟩ <;>
    simp [deployKeyObserve, deployKeyUpdate, deployKeyDelete, hpid, hext]

/-- C8 witness: the three operations at a concrete deploy key whose external
name is notAnInt. -/
theorem deployKey_external_name_not_int_witness :
    deployKeyObserve dkSvcNoop (Managed.deployKey crDeployKeyBadName)
      = (Managed.deployKey crDeployKeyBadName, {}, some dkErrIDNotAnInt)
    ∧ deployKeyUpdate dkSvcNoop (Managed.deployKey crDeployKeyBadName)
      = (Managed.deployKey crDeployKeyBadName, {},
         some (dkErrIDNotAnInt ++ ": " ++ goAtoiErrMsg "notAnInt"))
    ∧ deployKeyDelete dkSvcNoop (Managed.deployKey crDeployKeyBadName)
      = (Managed.deployKey crDeployKeyBadName,
         some (dkErrIDNotAnInt ++ ": " ++ goAtoiErrMsg "notAnInt")) :=
  deployKey_external_name_not_int dkSvcNoop crDeployKeyBadName "pid"
    (goAtoiErrMsg "notAnInt") rfl rfl

/-- C8 counterexample: Observe at external name notAnInt returns the bare
id-not-an-integer message, not that message wrapping the strconv.Atoi
error as the claim states (the wrapped and bare messages differ). -/
theorem deployKeyObserve_bare_error_counterexample :
    (deployKeyObserve dkSvcNoop (Managed.deployKey crDeployKeyBadName)).2.2
      = some dkErrIDNotAnInt
    ∧ some dkErrIDNotAnInt
        ≠ some (dkErrIDNotAnInt ++ ": " ++ goAtoiErrMsg "notAnInt") :=
  ⟨rfl, by decide⟩

/-- C9: late-initialization during project Observe and Create is not atomic
with persistence: when the GitLab call succeeds, the remote project
late-initializes the spec and the subsequent Kubernetes update fails, both
operations return the update error wrapped with the kube-update-failed
message while the returned custom resource keeps the late-initialized spec
value. -/
theorem project_late_init_kept_on_kube_failure
    (svc : ProjectService) (cr : ProjectCR) (prj : GitlabProject) (e : String)
    (hget : svc.GetProject cr.ExternalName = { Project := prj })
    (hcreate : svc.CreateProject cr.Spec = { Project := prj })
    (hpath : cr.Spec.Path = none) (hne : prj.Path ≠ "") :
    projectObserve svc (some e) cr
      = ({ cr with Spec := { Path := some prj.Path } }, {},
         some (prjErrKubeUpdateFailed ++ ": " ++ e))
    ∧ projectCreate svc (some e) cr
      = ({ cr with Spec := { Path := some prj.Path } }, {},
         some (prjErrKubeUpdateFailed ++ ": " ++ e)) := by
  obtain ⟨en, sp, conds⟩ := cr
  obtain ⟨pathField⟩ := sp
  simp only at hpath hget hcreate
  subst hpath
  constructor <;>
    simp [projectObserve, projectCreate, hget, hcreate, lateInitializeProject,
      LateInitializeStringPtr, hne]

/-- C9 witness: a concrete empty project resource against a service returning
a project with a path, the Kubernetes update failing with boom. -/
theorem project_late_init_kept_on_kube_failure_witness :
    projectObserve prjSvcLateInit (some "boom") {}
      = ({ Spec := { Path := some prjLateInitRemote.Path } }, {},
         some (prjErrKubeUpdateFailed ++ ": " ++ "boom"))
    ∧ projectCreate prjSvcLateInit (some "boom") {}
      = ({ Spec := { Path := some prjLateInitRemote.Path } }, {},
         some (prjErrKubeUpdateFailed ++ ": " ++ "boom")) :=
  project_late_init_kept_on_kube_failure prjSvcLateInit {} prjLateInitRemote "boom"
    rfl rfl rfl (by decide)
